import Mathlib

/-!
Raft leader election (vote RPC): verification of the election subsystem.

Shallow embedding of `src/raft/vote.rs`: the vote-request receiver
(`Handler<VoteRequest>::handle` and `_handle_vote_request`) and the
vote-response continuation inside `request_vote`, together with theorems
settling the specification's claims about them.

Machine integers: `term`, `last_log_index`, `last_log_term` are Rust `u64`
values that this code only compares and copies, so they are modelled as `Nat`.
`votes_granted`/`votes_needed` are `u32`; the single increment
`votes_granted += 1` is modelled with an explicit wrap `% 2^32`.
The fallible handler (`Result<VoteResponse, ()>`) is modelled with
`Option VoteResponse` (`none` for `Err(())`).
Side effects performed through the actix context (`save_hard_state`,
`update_election_timeout`, `become_follower`, `update_current_leader`,
`become_leader`) are recorded as an ordered trace of `Effect`s in the order
the code invokes them.
-/

/-- Wire message `VoteRequest { target, term, candidate_id, last_log_index,
last_log_term }` (field order as in `VoteRequest::new`). -/
structure VoteRequest where
  target : Nat
  term : Nat
  candidate_id : Nat
  last_log_index : Nat
  last_log_term : Nat
deriving DecidableEq, Repr

/-- Wire message `VoteResponse { term, vote_granted }`. -/
structure VoteResponse where
  term : Nat
  vote_granted : Bool
deriving DecidableEq, Repr

/-- Payload of the `Candidate` state variant: the election tally. -/
structure CandidateState where
  votes_granted : Nat
  votes_needed : Nat
deriving DecidableEq, Repr

/-- The node's transient state variant (`RaftState`). -/
inductive RaftState where
  | Initializing
  | Follower
  | Candidate (s : CandidateState)
  | Leader
deriving DecidableEq, Repr

/-- The fields of the `Raft` actor that the vote subsystem reads or writes:
node id, membership set (`HashSet<NodeId>` modelled as a list), state variant,
hard state `{current_term, voted_for}`, and the last log position. -/
structure RaftNode where
  id : Nat
  members : List Nat
  state : RaftState
  current_term : Nat
  voted_for : Option Nat
  last_log_index : Nat
  last_log_term : Nat
deriving DecidableEq, Repr

/-- Side effects the vote subsystem requests through the actor context, in
invocation order. `reply r` marks the `VoteResponse` being emitted to the
caller once the handler returns `Ok(r)`. -/
inductive Effect where
  | saveHardState
  | updateElectionTimeout
  | becomeFollower
  | updateCurrentLeaderUnknown
  | becomeLeader
  | reply (r : VoteResponse)
deriving DecidableEq, Repr

/-- Embedding of `Raft::_handle_vote_request`, the business logic of a `VoteRequest` RPC.
Returns the `Result` (`none` = `Err(())`), the updated actor fields, and the
trace of context side effects in the order the code performs them. -/
def handleVoteRequestCore (n : RaftNode) (msg : VoteRequest) :
    Option VoteResponse × RaftNode × List Effect :=
  -- Don't interact with non-cluster members.
  if msg.candidate_id ∈ n.members then
    -- If candidate's current term is less than this nodes current term, reject.
    if msg.term < n.current_term then
      (some ⟨n.current_term, false⟩, n, [])
    -- If candidate's log is not at least as up-to-date as this node, then reject.
    else if msg.last_log_term < n.last_log_term || msg.last_log_index < n.last_log_index then
      (some ⟨n.current_term, false⟩, n, [])
    -- If term is newer than current term, cast vote.
    else if n.current_term < msg.term then
      let n1 := { n with current_term := msg.term, voted_for := some msg.candidate_id }
      (some ⟨n1.current_term, true⟩, n1, [.saveHardState, .updateElectionTimeout])
    else
      -- Term is the same as current term: consult voted_for.
      match n.voted_for with
      | some c =>
        if c = msg.candidate_id then
          -- Already voted for this candidate.
          (some ⟨n.current_term, true⟩, n, [.updateElectionTimeout])
        else
          -- Already voted for a different candidate.
          (some ⟨n.current_term, false⟩, n, [])
      | none =>
        -- Has not voted yet, so vote for the candidate.
        let n1 := { n with voted_for := some msg.candidate_id }
        (some ⟨n1.current_term, true⟩, n1, [.saveHardState, .updateElectionTimeout])
  else
    (none, n, [])

/-- Embedding of `Handler<VoteRequest>::handle`: drops the RPC with `Err(())` while the
actor is still `Initializing`, otherwise runs `_handle_vote_request`. -/
def handleVoteRequest (n : RaftNode) (msg : VoteRequest) :
    Option VoteResponse × RaftNode × List Effect :=
  match n.state with
  | .Initializing => (none, n, [])
  | _ => handleVoteRequestCore n msg

/-- State reached after handling one vote request. -/
def stepRequest (n : RaftNode) (msg : VoteRequest) : RaftNode :=
  (handleVoteRequest n msg).2.1

/-- State reached after handling a sequence of vote requests in order. -/
def runRequests (n : RaftNode) (msgs : List VoteRequest) : RaftNode :=
  msgs.foldl stepRequest n

/-- Modelled from the spec: the body of `save_hard_state` is not part of this
file, and per the spec it is a durable persist that completes before any
later event is emitted. Under that model, the emission-order event trace of
one vote request is the side-effect calls made inside `_handle_vote_request`
in invocation order, followed by the reply that the actor framework sends
from the returned `Ok` value once the handler body has finished. -/
def handleVoteRequestEvents (n : RaftNode) (msg : VoteRequest) : List Effect :=
  (handleVoteRequest n msg).2.2 ++
    (match (handleVoteRequest n msg).1 with
      | some r => [.reply r]
      | none => [])

/-- Modelled from the spec: `become_follower` (body outside this file)
discards any in-flight candidate tally, resets the election timer and marks
the current leader unknown; it does not touch `current_term`. -/
def become_follower (n : RaftNode) : RaftNode :=
  { n with state := .Follower }

/-- Modelled from the spec: `become_leader` (body outside this file) clears
candidate bookkeeping and marks this node leader; it does not touch
`current_term`. -/
def become_leader (n : RaftNode) : RaftNode :=
  { n with state := .Leader }

/-- The vote-response continuation inside `Raft::request_vote` (the final
`and_then` closure): returns the updated actor fields and the trace of context
side effects in invocation order. -/
def handleVoteResponse (n : RaftNode) (res : VoteResponse) : RaftNode × List Effect :=
  -- Ensure the node is still in candidate state.
  match n.state with
  | .Candidate cs =>
    -- If peer's term is greater than current term, revert to follower state.
    if n.current_term < res.term then
      let n1 := { become_follower n with current_term := res.term }
      (n1, [.becomeFollower, .updateCurrentLeaderUnknown, .saveHardState])
    -- If peer granted vote, then update campaign state.
    else if res.vote_granted then
      let vg := (cs.votes_granted + 1) % 4294967296
      let n1 := { n with state := .Candidate { cs with votes_granted := vg } }
      if cs.votes_needed ≤ vg then
        -- If the campaign was successful, go into leader state.
        (become_leader n1, [.becomeLeader])
      else
        (n1, [])
    else
      (n, [])
  | _ => (n, [])

/-- The `VoteRequest` that `Raft::request_vote` sends to `target`:
`VoteRequest::new(target, self.current_term, self.id, self.last_log_index,
self.last_log_term)`. -/
def requestVoteMsg (n : RaftNode) (target : Nat) : VoteRequest :=
  ⟨target, n.current_term, n.id, n.last_log_index, n.last_log_term⟩

/-- An event delivered to the node's sequential event loop: an inbound vote
request or an inbound vote response. -/
inductive Event where
  | req (msg : VoteRequest)
  | resp (r : VoteResponse)
deriving DecidableEq, Repr

/-- State reached after processing one event. -/
def stepEvent (n : RaftNode) (e : Event) : RaftNode :=
  match e with
  | .req msg => stepRequest n msg
  | .resp r => (handleVoteResponse n r).1

/-- State reached after processing a sequence of events in order. -/
def runEvents (n : RaftNode) (es : List Event) : RaftNode :=
  es.foldl stepEvent n

lemma core_term_mono (n : RaftNode) (msg : VoteRequest) :
    n.current_term ≤ (handleVoteRequestCore n msg).2.1.current_term := by
  unfold handleVoteRequestCore
  repeat' split
  all_goals simp_all

lemma stepRequest_term_mono (n : RaftNode) (msg : VoteRequest) :
    n.current_term ≤ (stepRequest n msg).current_term := by
  unfold stepRequest handleVoteRequest
  split
  · exact le_refl _
  · exact core_term_mono n msg

lemma stepResponse_term_mono (n : RaftNode) (r : VoteResponse) :
    n.current_term ≤ (handleVoteResponse n r).1.current_term := by
  unfold handleVoteResponse become_follower become_leader
  split
  · split
    · simp
      omega
    · dsimp only
      split
      · split <;> simp
      · simp
  · simp

lemma stepEvent_term_mono (n : RaftNode) (e : Event) :
    n.current_term ≤ (stepEvent n e).current_term := by
  cases e with
  | req msg => exact stepRequest_term_mono n msg
  | resp r => exact stepResponse_term_mono n r

lemma runEvents_term_mono (es : List Event) :
    ∀ n : RaftNode, n.current_term ≤ (runEvents n es).current_term := by
  induction es with
  | nil => intro n; exact le_refl _
  | cons e es ih =>
    intro n
    exact le_trans (stepEvent_term_mono n e) (ih (stepEvent n e))

lemma runRequests_term_mono (msgs : List VoteRequest) :
    ∀ n : RaftNode, n.current_term ≤ (runRequests n msgs).current_term := by
  induction msgs with
  | nil => intro n; exact le_refl _
  | cons m ms ih =>
    intro n
    exact le_trans (stepRequest_term_mono n m) (ih (stepRequest n m))

lemma stepRequest_voted_preserve (n : RaftNode) (m : VoteRequest) (x : Nat)
    (hv : n.voted_for = some x) (ht : (stepRequest n m).current_term = n.current_term) :
    (stepRequest n m).voted_for = some x := by
  unfold stepRequest handleVoteRequest handleVoteRequestCore at ht ⊢
  repeat' split
  all_goals simp_all

lemma handle_same_term_other_candidate (n : RaftNode) (m : VoteRequest) (x : Nat)
    (hv : n.voted_for = some x) (ht : m.term = n.current_term) (hx : m.candidate_id ≠ x) :
    ∀ r : VoteResponse, (handleVoteRequest n m).1 = some r → r.vote_granted = false := by
  intro r hr
  unfold handleVoteRequest handleVoteRequestCore at hr
  repeat' split at hr
  all_goals try simp_all
  all_goals (cases hr; simp_all)

lemma runRequests_voted_preserve (msgs : List VoteRequest) :
    ∀ (n : RaftNode) (x : Nat), n.voted_for = some x →
      (runRequests n msgs).current_term = n.current_term →
      (runRequests n msgs).voted_for = some x := by
  induction msgs with
  | nil => intro n x hv _; exact hv
  | cons m ms ih =>
    intro n x hv hterm
    have h1 := stepRequest_term_mono n m
    have h2 := runRequests_term_mono ms (stepRequest n m)
    have hrun : runRequests n (m :: ms) = runRequests (stepRequest n m) ms := rfl
    rw [hrun] at hterm ⊢
    have heq : (stepRequest n m).current_term = n.current_term := by omega
    exact ih (stepRequest n m) x (stepRequest_voted_preserve n m x hv heq)
      (hterm.trans heq.symm)

/-- C2: over any sequence of handled vote requests, once `voted_for = Some x`
is recorded, it stays `Some x` for as long as `current_term` has not advanced,
and while it stays, any request for that same term from a candidate other
than `x` that receives a response receives `vote_granted = false`. -/
theorem at_most_one_vote_per_term (n : RaftNode) (x : Nat)
    (msgs : List VoteRequest) (m : VoteRequest)
    (hv : n.voted_for = some x)
    (hterm : (runRequests n msgs).current_term = n.current_term) :
    (runRequests n msgs).voted_for = some x ∧
    (m.term = n.current_term → m.candidate_id ≠ x →
      ∀ r : VoteResponse,
        (handleVoteRequest (runRequests n msgs) m).1 = some r →
        r.vote_granted = false) := by
  have hvp := runRequests_voted_preserve msgs n x hv hterm
  refine ⟨hvp, fun ht hx r hr => ?_⟩
  exact handle_same_term_other_candidate (runRequests n msgs) m x hvp
    (ht.trans hterm.symm) hx r hr

theorem at_most_one_vote_per_term_witness :
    ((runRequests ⟨1, [1, 2, 3], .Follower, 3, some 2, 0, 0⟩
        [⟨1, 3, 2, 0, 0⟩]).voted_for = some 2 ∧
      ((⟨1, 3, 3, 0, 0⟩ : VoteRequest).term = 3 →
        (⟨1, 3, 3, 0, 0⟩ : VoteRequest).candidate_id ≠ 2 →
        ∀ r : VoteResponse,
          (handleVoteRequest
            (runRequests ⟨1, [1, 2, 3], .Follower, 3, some 2, 0, 0⟩
              [⟨1, 3, 2, 0, 0⟩]) ⟨1, 3, 3, 0, 0⟩).1 = some r →
          r.vote_granted = false)) :=
  at_most_one_vote_per_term ⟨1, [1, 2, 3], .Follower, 3, some 2, 0, 0⟩ 2
    [⟨1, 3, 2, 0, 0⟩] ⟨1, 3, 3, 0, 0⟩ (by decide) (by decide)

/-- C6: `current_term` never decreases: it is non-decreasing across any
sequence of handled events (vote requests and vote responses), and each
single step either leaves it unchanged or strictly increases it. -/
theorem current_term_monotone (n : RaftNode) (es : List Event) (e : Event) :
    n.current_term ≤ (runEvents n es).current_term ∧
    (n.current_term = (stepEvent n e).current_term ∨
      n.current_term < (stepEvent n e).current_term) := by
  refine ⟨runEvents_term_mono es n, ?_⟩
  have := stepEvent_term_mono n e
  omega

/-- C5: if a vote request receives a granted response then its term was at
least the node's current term beforehand, and afterwards the node's
`current_term` equals the maximum of the old term and the request's term. -/
theorem grant_implies_term_max (n : RaftNode) (m : VoteRequest) (r : VoteResponse)
    (hr : (handleVoteRequest n m).1 = some r) (hg : r.vote_granted = true) :
    n.current_term ≤ m.term ∧
    (stepRequest n m).current_term = max n.current_term m.term := by
  obtain ⟨rt, rg⟩ := r
  subst hg
  unfold stepRequest
  unfold handleVoteRequest handleVoteRequestCore at hr ⊢
  repeat' split
  all_goals simp_all

theorem grant_implies_term_max_witness :
    (⟨1, [1, 2, 3], .Follower, 2, none, 8, 2⟩ : RaftNode).current_term ≤
        (⟨1, 2, 2, 10, 2⟩ : VoteRequest).term ∧
      (stepRequest ⟨1, [1, 2, 3], .Follower, 2, none, 8, 2⟩
          ⟨1, 2, 2, 10, 2⟩).current_term = max 2 2 :=
  grant_implies_term_max ⟨1, [1, 2, 3], .Follower, 2, none, 8, 2⟩
    ⟨1, 2, 2, 10, 2⟩ ⟨2, true⟩ (by decide) (by decide)

/-- C8: a vote request from a cluster member with a term below the node's
current term is answered `{term: current_term, vote_granted: false}` with the
node state completely unchanged and no side effect (no persist, no election
timer reset) performed. -/
theorem stale_request_rejected_no_mutation (n : RaftNode) (m : VoteRequest)
    (hmem : m.candidate_id ∈ n.members) (hinit : n.state ≠ .Initializing)
    (ht : m.term < n.current_term) :
    handleVoteRequest n m = (some ⟨n.current_term, false⟩, n, []) := by
  unfold handleVoteRequest handleVoteRequestCore
  repeat' split
  all_goals simp_all

theorem stale_request_rejected_no_mutation_witness :
    handleVoteRequest ⟨1, [1, 2, 3], .Follower, 5, none, 0, 0⟩ ⟨1, 3, 2, 0, 0⟩ =
      (some ⟨5, false⟩, ⟨1, [1, 2, 3], .Follower, 5, none, 0, 0⟩, []) :=
  stale_request_rejected_no_mutation ⟨1, [1, 2, 3], .Follower, 5, none, 0, 0⟩
    ⟨1, 3, 2, 0, 0⟩ (by decide) (by decide) (by decide)

/-- C10: the vote-request handler produces no response exactly when the node
is still `Initializing` or the request's candidate is not in the membership
set; every other request gets a `VoteResponse` back. -/
theorem vote_request_error_iff (n : RaftNode) (m : VoteRequest) :
    (handleVoteRequest n m).1 = none ↔
      (n.state = .Initializing ∨ m.candidate_id ∉ n.members) := by
  unfold handleVoteRequest handleVoteRequestCore
  repeat' split
  all_goals simp_all

lemma grant_cases (n : RaftNode) (m : VoteRequest) (r : VoteResponse)
    (hr : (handleVoteRequest n m).1 = some r) (hg : r.vote_granted = true) :
    m.candidate_id ∈ n.members ∧ n.state ≠ .Initializing ∧
    ¬ m.last_log_term < n.last_log_term ∧ ¬ m.last_log_index < n.last_log_index ∧
    n.current_term ≤ m.term ∧ r = ⟨m.term, true⟩ ∧
    stepRequest n m =
      { n with current_term := m.term, voted_for := some m.candidate_id } := by
  obtain ⟨rt, rg⟩ := r
  subst hg
  obtain ⟨ni, nm, ns, nt, nv, nli, nlt⟩ := n
  unfold stepRequest
  unfold handleVoteRequest handleVoteRequestCore at hr ⊢
  repeat' split
  all_goals simp_all
  all_goals omega

/-- C9: replaying a vote request that was just granted is idempotent: the
second reply equals the first, the node state (hard state included) is not
mutated again, and the only side effect is resetting the election timeout. -/
theorem duplicate_vote_request_idempotent (n : RaftNode) (m : VoteRequest)
    (r : VoteResponse) (hr : (handleVoteRequest n m).1 = some r)
    (hg : r.vote_granted = true) :
    handleVoteRequest (stepRequest n m) m =
      (some r, stepRequest n m, [.updateElectionTimeout]) := by
  obtain ⟨hmem, hinit, hlt, hli, hterm, hre, hstep⟩ := grant_cases n m r hr hg
  subst hre
  rw [hstep]
  unfold handleVoteRequest handleVoteRequestCore
  cases hst : n.state
  all_goals simp_all

theorem duplicate_vote_request_idempotent_witness :
    handleVoteRequest
        (stepRequest ⟨1, [1, 2, 3], .Follower, 2, none, 8, 2⟩ ⟨1, 2, 2, 10, 2⟩)
        ⟨1, 2, 2, 10, 2⟩ =
      (some ⟨2, true⟩,
        stepRequest ⟨1, [1, 2, 3], .Follower, 2, none, 8, 2⟩ ⟨1, 2, 2, 10, 2⟩,
        [.updateElectionTimeout]) :=
  duplicate_vote_request_idempotent ⟨1, [1, 2, 3], .Follower, 2, none, 8, 2⟩
    ⟨1, 2, 2, 10, 2⟩ ⟨2, true⟩ (by decide) (by decide)

/-- C4: on every path of the vote-request handler that changes the hard state
`{current_term, voted_for}`, the emission-order trace is exactly: durable
hard-state persist, election-timer reset, then the granted reply — the persist
completes strictly before the response is emitted. -/
theorem persist_completes_before_granted_reply (n : RaftNode) (m : VoteRequest)
    (hchange : (stepRequest n m).current_term ≠ n.current_term ∨
      (stepRequest n m).voted_for ≠ n.voted_for) :
    ∃ r : VoteResponse, r.vote_granted = true ∧
      handleVoteRequestEvents n m =
        [.saveHardState, .updateElectionTimeout, .reply r] := by
  unfold handleVoteRequestEvents
  unfold stepRequest at hchange
  unfold handleVoteRequest handleVoteRequestCore at hchange ⊢
  repeat' split
  all_goals try simp_all
  all_goals subst_vars
  all_goals simp_all

theorem persist_completes_before_granted_reply_witness :
    ∃ r : VoteResponse, r.vote_granted = true ∧
      handleVoteRequestEvents ⟨1, [1, 2, 3], .Follower, 2, none, 8, 2⟩
          ⟨1, 2, 2, 10, 2⟩ =
        [.saveHardState, .updateElectionTimeout, .reply r] :=
  persist_completes_before_granted_reply ⟨1, [1, 2, 3], .Follower, 2, none, 8, 2⟩
    ⟨1, 2, 2, 10, 2⟩ (by decide)

/-- C7: the vote-response continuation invokes `become_leader` (and ends in
`Leader` state) only when the node was a candidate, the response's term did
not exceed the current term, the vote was granted, and the incremented tally
reaches `votes_needed`. -/
theorem leader_only_at_quorum (n : RaftNode) (res : VoteResponse)
    (h : Effect.becomeLeader ∈ (handleVoteResponse n res).2 ∨
      ((handleVoteResponse n res).1.state = .Leader ∧ n.state ≠ .Leader)) :
    ∃ cs : CandidateState, n.state = .Candidate cs ∧ res.vote_granted = true ∧
      ¬ n.current_term < res.term ∧
      cs.votes_needed ≤ (cs.votes_granted + 1) % 4294967296 ∧
      (handleVoteResponse n res).1.state = .Leader := by
  unfold handleVoteResponse become_follower become_leader at h ⊢
  dsimp only at h ⊢
  repeat' split at h
  all_goals try simp_all
  all_goals (split <;> try simp_all)
  all_goals omega

theorem leader_only_at_quorum_witness :
    ∃ cs : CandidateState,
      (⟨1, [1, 2, 3], .Candidate ⟨1, 2⟩, 4, some 1, 0, 0⟩ : RaftNode).state =
          .Candidate cs ∧
        (⟨4, true⟩ : VoteResponse).vote_granted = true ∧
        ¬ (4 : Nat) < (⟨4, true⟩ : VoteResponse).term ∧
        cs.votes_needed ≤ (cs.votes_granted + 1) % 4294967296 ∧
        (handleVoteResponse ⟨1, [1, 2, 3], .Candidate ⟨1, 2⟩, 4, some 1, 0, 0⟩
            ⟨4, true⟩).1.state = .Leader :=
  leader_only_at_quorum ⟨1, [1, 2, 3], .Candidate ⟨1, 2⟩, 4, some 1, 0, 0⟩
    ⟨4, true⟩ (by decide)

/-- C1: the log comparison at the second check of `_handle_vote_request`
compares `last_log_index` unconditionally (`msg.last_log_term <
self.last_log_term || msg.last_log_index < self.last_log_index`), so a
candidate whose `last_log_term` is strictly greater than the receiver's — a
log that is strictly more up to date under the rule of Raft §5.4.1 cited by
the handler's own doc comment — is still rejected whenever its
`last_log_index` is smaller. Concretely: receiver at term 1 with last log
entry `(index 5, term 1)`, member candidate 2 requesting at term 2 with last
log entry `(index 3, term 2)` passes the stale-term check, has the strictly
greater `last_log_term`, and is nevertheless rejected with
`{term: 1, vote_granted: false}` and no state change. -/
theorem log_check_rejects_strictly_fresher_log :
    (⟨1, [1, 2], .Follower, 1, none, 5, 1⟩ : RaftNode).current_term ≤
        (⟨1, 2, 2, 3, 2⟩ : VoteRequest).term ∧
      (⟨1, [1, 2], .Follower, 1, none, 5, 1⟩ : RaftNode).last_log_term <
        (⟨1, 2, 2, 3, 2⟩ : VoteRequest).last_log_term ∧
      handleVoteRequest ⟨1, [1, 2], .Follower, 1, none, 5, 1⟩ ⟨1, 2, 2, 3, 2⟩ =
        (some ⟨1, false⟩, ⟨1, [1, 2], .Follower, 1, none, 5, 1⟩, []) := by
  decide

/-- C3 counterexample: a vote response that can only belong to a superseded
election attempt is applied to the current attempt's tally. The node is
`Candidate` at term 8 with tally 1 of 3; a granted response with term 5
arrives. Since a vote request carries the candidate's `current_term` at send
time and a granting voter replies with a term at least that large, a granted
response with term 5 < 8 was necessarily issued for an attempt at a term
below 8 — a superseded attempt. Yet the continuation increments the current
tally from 1 to 2 instead of discarding the response. -/
theorem stale_response_mutates_current_tally :
    (⟨5, true⟩ : VoteResponse).vote_granted = true ∧
      (⟨5, true⟩ : VoteResponse).term <
        (⟨1, [1, 2, 3, 4, 5], .Candidate ⟨1, 3⟩, 8, some 1, 0, 0⟩ :
          RaftNode).current_term ∧
      handleVoteResponse ⟨1, [1, 2, 3, 4, 5], .Candidate ⟨1, 3⟩, 8, some 1, 0, 0⟩
          ⟨5, true⟩ =
        (⟨1, [1, 2, 3, 4, 5], .Candidate ⟨2, 3⟩, 8, some 1, 0, 0⟩, []) := by
  decide

/-- C3 (amended): the only supersession guard in the vote-response
continuation is the check that the node is still in `Candidate` state: a
response arriving while the node is not a candidate is discarded without
mutating any state or performing any side effect. (A response from a
superseded attempt is *not* discarded when the node has meanwhile become
`Candidate` again for a later term.) -/
theorem response_discarded_when_not_candidate (n : RaftNode) (res : VoteResponse)
    (h : ∀ cs : CandidateState, n.state ≠ .Candidate cs) :
    handleVoteResponse n res = (n, []) := by
  unfold handleVoteResponse
  split
  · exact absurd (by assumption) (h _)
  · rfl

theorem response_discarded_when_not_candidate_witness :
    handleVoteResponse ⟨1, [1, 2, 3], .Follower, 7, some 2, 0, 0⟩ ⟨9, true⟩ =
      (⟨1, [1, 2, 3], .Follower, 7, some 2, 0, 0⟩, []) :=
  response_discarded_when_not_candidate ⟨1, [1, 2, 3], .Follower, 7, some 2, 0, 0⟩
    ⟨9, true⟩ (fun cs h => by simp at h)
